import Mathlib

/-!
# Geonest Mart: sale-code issuance and redemption workflow, shallowly embedded

This file embeds the scan-checkout sale workflow of the repository
(`src/app/api/scan/create/route.ts`, `src/app/api/scan/confirm/route.ts`,
`src/app/api/pos/confirm-scan/route.ts`) as executable Lean definitions and
proves properties of the embedded operations.

Conventions of the embedding:
* JavaScript numbers are modelled by `JSNum` (a rational, or one of the
  non-finite values `NaN`, `Infinity`, `-Infinity`); arithmetic performed by
  the routes only ever touches finite values, which are modelled as `ℚ`.
* The database is modelled explicitly: the `sales` and `sale_items` tables are
  lists of rows (`DB`); each route is a function from inputs and a database
  state to a result and a new database state, or (for the creation routes,
  where the storage layer's insert responses drive the retry loop) the
  storage layer's responses are an oracle in a `CreateEnv` and the function
  reports the rows it wrote.
* `Math.random()` is modelled as an oracle `ℕ → ℚ` giving the value of the
  k-th call, assumed (as hypotheses where needed) to lie in `[0, 1)`.
* String coercions follow the source: statuses are strings compared after
  `toUpperCase`, error-message classification uses `toLowerCase` plus
  JavaScript `String.prototype.includes`.
-/

/-- JavaScript `String.prototype.includes`: substring containment. -/
def jsIncludes (s pat : String) : Bool :=
  decide (pat.toList <:+: s.toList)

/-- JavaScript `String.prototype.toUpperCase` (ASCII, which is all the
routes compare). -/
def jsToUpper (s : String) : String :=
  ⟨s.data.map Char.toUpper⟩

/-- JavaScript `String.prototype.toLowerCase` (ASCII). -/
def jsToLower (s : String) : String :=
  ⟨s.data.map Char.toLower⟩

/-- JavaScript `String.prototype.trim`: strip whitespace from both ends. -/
def jsTrim (s : String) : String :=
  ⟨((s.data.dropWhile Char.isWhitespace).reverse.dropWhile Char.isWhitespace).reverse⟩

/-- A JavaScript number: a finite rational or one of the non-finite values. -/
inductive JSNum where
  | num (q : ℚ)
  | nan
  | posInf
  | negInf
deriving DecidableEq

/-- `Number.isFinite`. -/
def JSNum.isFinite : JSNum → Bool
  | .num _ => true
  | _ => false

/-- JavaScript `x > 0`. (`NaN > 0` is false; `Infinity > 0` is true.) -/
def JSNum.isPos : JSNum → Bool
  | .num q => decide (0 < q)
  | .posInf => true
  | _ => false

/-- JavaScript falsiness of a number (`0` and `NaN` are falsy). -/
def JSNum.falsy : JSNum → Bool
  | .num q => q == 0
  | .nan => true
  | _ => false

/-- The finite value of a JavaScript number (junk `0` on non-finite values;
only ever used after an `isFinite` filter). -/
def JSNum.toQ : JSNum → ℚ
  | .num q => q
  | _ => 0

/-- A row of the `sales` table, with the columns the workflow touches. -/
structure SaleRow where
  id : ℕ
  source : String
  status : String
  payment_status : String
  payment_method : String
  momo_reference : Option String
  staff_id : Option String
  public_code : String
  note : String
  created_at : ℕ
deriving DecidableEq

/-- A row of the `sale_items` table. -/
structure SaleItemRow where
  sale_id : ℕ
  product_id : String
  qty : ℚ
  unit_price_at_time : ℚ
  line_total : ℚ
deriving DecidableEq

/-- The database state visible to the workflow. -/
structure DB where
  sales : List SaleRow
  items : List SaleItemRow
deriving DecidableEq

/-- `genCode` (`scan/create/route.ts` line 4, `pos/confirm-scan/route.ts`):
`Math.floor(100000 + Math.random() * 900000)`, as a natural number, where
`r` is the value returned by `Math.random()`. -/
def genCodeNat (r : ℚ) : ℕ :=
  (⌊(100000 : ℚ) + r * 900000⌋).toNat

/-- `genCode`: `String(Math.floor(100000 + Math.random() * 900000))`. -/
def genCode (r : ℚ) : String :=
  Nat.repr (genCodeNat r)

/-- The duplicate-key test applied to an insert error message
(`scan/create/route.ts` lines 91-93): lowercase the message and look for
`"duplicate"`, `"unique"` or `"public_code"` as a substring. -/
def isDupMsg (msg : String) : Bool :=
  let m := jsToLower msg
  jsIncludes m "duplicate" || jsIncludes m "unique" || jsIncludes m "public_code"

/-- One parsed element of `body.items`
(`type SaleItemInput` in the routes, after the `String`/`Number` coercions). -/
structure SaleItemInput where
  product_id : String
  qty : JSNum
deriving DecidableEq

/-- The per-item normalisation performed by the routes' `.map`:
`product_id: String(it.product_id || "").trim(), qty: Number(it.qty || 0)`. -/
def normItem (it : SaleItemInput) : SaleItemInput :=
  { product_id := jsTrim it.product_id
    qty := if it.qty.falsy then .num 0 else it.qty }

/-- The routes' item pipeline: `.map(...)` then
`.filter((x) => x.product_id && Number.isFinite(x.qty) && x.qty > 0)`. -/
def validItems (itemsIn : List SaleItemInput) : List SaleItemInput :=
  (itemsIn.map normItem).filter
    (fun x => !(x.product_id == "") && x.qty.isFinite && x.qty.isPos)

/-- `priceMap.get`: the rows are folded into a `Map` with `set`, so a later
row with the same id overwrites an earlier one; lookup therefore finds the
last matching row. -/
def priceMapGet (rows : List (String × ℚ)) (pid : String) : Option ℚ :=
  rows.reverse.lookup pid

/-- Storage-layer response to one `sales` insert attempt. -/
inductive SaleInsertOutcome where
  | ok (id : ℕ)
  | err (msg : String)

/-- Result of a creation route (each constructor is one `return` site). -/
inductive CreateResult where
  | unauthorized
  | invalidItems
  | settingsError (msg : String)
  | scanDisabled
  | priceError (msg : String)
  | insertError (msg : String)
  | missingProduct (product_id : String)
  | itemsInsertFailed (msg : String)
  | retryExhausted (msg : String)
  | ok (code : String)
deriving DecidableEq

/-- What a creation route did: its result, the number of `sales` insert
attempts it performed, and the rows it wrote. -/
structure CreateOut where
  result : CreateResult
  attempts : ℕ
  salesWritten : List SaleRow
  itemsWritten : List SaleItemRow
deriving DecidableEq

/-- Environment of a creation route: the values the storage layer returns
for each read and for each insert attempt, and the `Math.random()` stream. -/
structure CreateEnv where
  settingsRes : Except String (Option Bool)
  pricesRes : Except String (List (String × ℚ))
  saleInsert : ℕ → SaleInsertOutcome
  itemsInsertErr : Option String
  rand : ℕ → ℚ
  now : ℕ

/-- The `sale_items` payload construction (`scan/create/route.ts` lines
100-114): a JavaScript `Array.map` that throws at the first item whose
product id is missing from the price map. -/
def buildPayload (rows : List (String × ℚ)) (sid : ℕ) :
    List SaleItemInput → Except String (List SaleItemRow)
  | [] => .ok []
  | it :: rest =>
    match priceMapGet rows it.product_id with
    | none => .error it.product_id
    | some unit =>
      match buildPayload rows sid rest with
      | .error pid => .error pid
      | .ok tl =>
        .ok ({ sale_id := sid
               product_id := it.product_id
               qty := it.qty.toQ
               unit_price_at_time := unit
               line_total := unit * it.qty.toQ } :: tl)

/-- The sale row inserted by the scan-create route
(`scan/create/route.ts` lines 75-87). -/
def scanSaleRow (pm : String) (momo : Option String) (id : ℕ) (code : String)
    (now : ℕ) : SaleRow :=
  { id := id
    source := "CUSTOMER_SCAN"
    status := "PENDING"
    payment_status := "PENDING"
    payment_method := pm
    momo_reference := momo
    staff_id := none
    public_code := code
    note := "Customer scan"
    created_at := now }

/-- The sale row inserted by the staff-manual create route
(`pos/confirm-scan/route.ts`, second document, lines 93-106). -/
def staffSaleRow (uid pm : String) (momo : Option String) (id : ℕ)
    (code : String) (now : ℕ) : SaleRow :=
  { id := id
    source := "STAFF_MANUAL"
    status := "PAID"
    payment_status := "CONFIRMED"
    payment_method := pm
    momo_reference := momo
    staff_id := some uid
    public_code := code
    note := "Manual POS"
    created_at := now }

/-- The retry loop shared by both creation routes
(`for (let attempt = 0; attempt < 6; attempt++)`): generate a code, attempt
the `sales` insert, retry on a duplicate-key error, abort on any other
insert error, and on success build and insert the `sale_items` payload. -/
def createLoop (saleInsert : ℕ → SaleInsertOutcome) (itemsInsertErr : Option String)
    (rand : ℕ → ℚ) (rows : List (String × ℚ)) (mkRow : ℕ → String → SaleRow)
    (items : List SaleItemInput) : ℕ → ℕ → Option String → CreateOut
  | 0, _, lastErr =>
    { result := .retryExhausted (lastErr.getD "Failed after retries.")
      attempts := 0, salesWritten := [], itemsWritten := [] }
  | fuel + 1, attempt, _ =>
    let code := genCode (rand attempt)
    match saleInsert attempt with
    | .err msg =>
      if isDupMsg msg then
        let out := createLoop saleInsert itemsInsertErr rand rows mkRow items
          fuel (attempt + 1) (some msg)
        { out with attempts := out.attempts + 1 }
      else
        { result := .insertError msg, attempts := 1
          salesWritten := [], itemsWritten := [] }
    | .ok saleId =>
      let row := mkRow saleId code
      match buildPayload rows saleId items with
      | .error pid =>
        { result := .missingProduct pid, attempts := 1
          salesWritten := [row], itemsWritten := [] }
      | .ok payload =>
        match itemsInsertErr with
        | some msg =>
          { result := .itemsInsertFailed msg, attempts := 1
            salesWritten := [row], itemsWritten := [] }
        | none =>
          { result := .ok code, attempts := 1
            salesWritten := [row], itemsWritten := payload }

/-- `POST /api/scan/create` (`scan/create/route.ts`): customer self-checkout
sale creation. -/
def scanCreate (env : CreateEnv) (pmIn momoIn : Option String)
    (itemsIn : List SaleItemInput) : CreateOut :=
  let pm := jsToUpper (pmIn.getD "CASH")
  let m := jsTrim (momoIn.getD "")
  let momo := if pm = "MOMO" ∧ m ≠ "" then some m else none
  let items := validItems itemsIn
  if items.isEmpty then
    { result := .invalidItems, attempts := 0, salesWritten := [], itemsWritten := [] }
  else
    match env.settingsRes with
    | .error e =>
      { result := .settingsError e, attempts := 0, salesWritten := [], itemsWritten := [] }
    | .ok flag =>
      if !(flag.getD false) then
        { result := .scanDisabled, attempts := 0, salesWritten := [], itemsWritten := [] }
      else
        match env.pricesRes with
        | .error e =>
          { result := .priceError e, attempts := 0, salesWritten := [], itemsWritten := [] }
        | .ok rows =>
          createLoop env.saleInsert env.itemsInsertErr env.rand rows
            (fun id code => scanSaleRow pm momo id code env.now) items 6 0 none

/-- `POST /api/pos/confirm-scan` (second document: the staff-manual sale
creation route). Requires a signed-in staff identity; never reads the
scan-enabled setting. -/
def staffCreate (env : CreateEnv) (uidIn : Option String) (pmIn momoIn : Option String)
    (itemsIn : List SaleItemInput) : CreateOut :=
  match uidIn with
  | none =>
    { result := .unauthorized, attempts := 0, salesWritten := [], itemsWritten := [] }
  | some uid =>
    let pm := jsToUpper (pmIn.getD "CASH")
    let m := jsTrim (momoIn.getD "")
    let momo := if pm = "MOMO" ∧ m ≠ "" then some m else none
    let items := validItems itemsIn
    if items.isEmpty then
      { result := .invalidItems, attempts := 0, salesWritten := [], itemsWritten := [] }
    else
      match env.pricesRes with
      | .error e =>
        { result := .priceError e, attempts := 0, salesWritten := [], itemsWritten := [] }
      | .ok rows =>
        createLoop env.saleInsert env.itemsInsertErr env.rand rows
          (fun id code => staffSaleRow uid pm momo id code env.now) items 6 0 none

/-- Result of `POST /api/scan/confirm`. -/
inductive ConfirmResult where
  | unauthorized
  | missingCode
  | codeNotFound
  | notScanSource
  | alreadyConfirmed
  | ok
deriving DecidableEq

/-- The row update performed by the confirm route (`scan/confirm/route.ts`
lines 44-51). -/
def confirmUpdate (uid : String) (s : SaleRow) : SaleRow :=
  { s with status := "PAID", payment_status := "CONFIRMED", staff_id := some uid }

/-- `POST /api/scan/confirm` (`scan/confirm/route.ts`): staff confirmation of
a scan-checkout sale, with source check and double-confirm guard. -/
def scanConfirm (uidIn : Option String) (codeIn : String) (db : DB) :
    ConfirmResult × DB :=
  match uidIn with
  | none => (.unauthorized, db)
  | some uid =>
    let code := jsTrim codeIn
    if code = "" then (.missingCode, db)
    else
      match db.sales.find? (fun s => s.public_code == code) with
      | none => (.codeNotFound, db)
      | some sale =>
        if sale.source ≠ "CUSTOMER_SCAN" then (.notScanSource, db)
        else if jsToUpper sale.status = "PAID" ∨ jsToUpper sale.payment_status = "CONFIRMED" then
          (.alreadyConfirmed, db)
        else
          (.ok,
            { db with
                sales := db.sales.map
                  (fun s => if s.id = sale.id then confirmUpdate uid s else s) })

/-- Result of the first document of `pos/confirm-scan/route.ts`. -/
inductive PosConfirmResult where
  | unauthorized
  | codeRequired
  | invalidCode
  | ok (sale_id : ℕ) (code : String)
deriving DecidableEq

/-- The row update performed by the POS confirm route
(`pos/confirm-scan/route.ts`, first document, lines 14-23): unconditional,
no source check and no double-confirm guard. -/
def posConfirmUpdate (uid : String) (s : SaleRow) : SaleRow :=
  { s with status := "PAID", payment_status := "confirmed", staff_id := some uid }

/-- `POST /api/pos/confirm-scan` (first document): mark the sale matching
`public_code` paid/confirmed with a single unconditional update. -/
def posConfirmScan (uidIn : Option String) (codeIn : String) (db : DB) :
    PosConfirmResult × DB :=
  match uidIn with
  | none => (.unauthorized, db)
  | some uid =>
    let code := jsTrim codeIn
    if code = "" then (.codeRequired, db)
    else
      let updated := db.sales.map
        (fun s => if s.public_code = code then posConfirmUpdate uid s else s)
      match updated.find? (fun s => s.public_code == code) with
      | none => (.invalidCode, db)
      | some s => (.ok s.id s.public_code, { db with sales := updated })

/-- The summary object returned by the lookup route. -/
structure LookupOk where
  code : String
  payment_status : String
  status : String
  paid : Bool
deriving DecidableEq

/-- Result of `GET /api/scan/create` (the lookup/poll endpoint). -/
inductive LookupResult where
  | invalidCode
  | codeNotFound
  | notScanCheckout
  | found (r : LookupOk)
deriving DecidableEq

/-- The response computed by `GET /api/scan/create` (`scan/create/route.ts`,
second document): look a sale up by public code, restricted to scan-sourced
sales, with the derived `paid` boolean. -/
def scanLookupRes (codeIn : String) (db : DB) : LookupResult :=
  let code := jsTrim codeIn
  if code = "" ∨ code.length < 4 then .invalidCode
  else
    match db.sales.find? (fun s => s.public_code == code) with
    | none => .codeNotFound
    | some sale =>
      if sale.source ≠ "CUSTOMER_SCAN" then .notScanCheckout
      else
        let ps := jsToUpper sale.payment_status
        let st := jsToUpper sale.status
        .found
          { code := sale.public_code
            payment_status := sale.payment_status
            status := sale.status
            paid := ps == "CONFIRMED" || st == "PAID" }

/-- `GET /api/scan/create` as a state transformer: the route performs only a
select, so the database state it leaves behind is the input state. -/
def scanLookup (codeIn : String) (db : DB) : LookupResult × DB :=
  (scanLookupRes codeIn db, db)

/-! ### Concrete fixtures for instantiating the theorems -/

/-- A one-product price table. -/
def exPrices : List (String × ℚ) := [("p1", 10)]

/-- A benign creation environment: scan enabled, one priced product, the
first insert succeeds, the items insert succeeds. -/
def exEnv : CreateEnv :=
  { settingsRes := .ok (some true)
    pricesRes := .ok exPrices
    saleInsert := fun _ => .ok 1
    itemsInsertErr := none
    rand := fun _ => 0
    now := 0 }

/-- Same environment but the price lookup returns no rows. -/
def exEnvNoPrices : CreateEnv := { exEnv with pricesRes := .ok [] }

/-- Same environment but every insert attempt reports a uniqueness
violation. -/
def exEnvDup : CreateEnv :=
  { exEnv with saleInsert := fun _ => .err "duplicate key value violates unique constraint" }

/-- Same environment but the first insert fails with a non-uniqueness
error. -/
def exEnvNonDup : CreateEnv :=
  { exEnv with saleInsert := fun _ => .err "permission denied for table sales" }

/-- Same environment but the scan-enabled flag is false. -/
def exEnvDisabled : CreateEnv := { exEnv with settingsRes := .ok (some false) }

/-- An already-confirmed scan-checkout sale. -/
def paidScanSale : SaleRow :=
  { id := 1, source := "CUSTOMER_SCAN", status := "PAID", payment_status := "CONFIRMED"
    payment_method := "CASH", momo_reference := none, staff_id := some "staff-1"
    public_code := "123456", note := "Customer scan", created_at := 5 }

/-- A pending scan-checkout sale. -/
def pendingScanSale : SaleRow :=
  { id := 2, source := "CUSTOMER_SCAN", status := "PENDING", payment_status := "PENDING"
    payment_method := "MOMO", momo_reference := some "MM-77", staff_id := none
    public_code := "234567", note := "Customer scan", created_at := 9 }

/-- A staff-manual sale, created already paid. -/
def manualSale : SaleRow :=
  { id := 3, source := "STAFF_MANUAL", status := "PAID", payment_status := "CONFIRMED"
    payment_method := "CASH", momo_reference := none, staff_id := some "staff-1"
    public_code := "345678", note := "Manual POS", created_at := 11 }

/-- A database holding the three fixture sales. -/
def exDb : DB := { sales := [paidScanSale, pendingScanSale, manualSale], items := [] }

/-! ### Helper lemmas -/

/-- `Nat.toDigitsCore` with enough fuel produces exactly
`Nat.log 10 n + 1` digits in front of the accumulator. -/
lemma toDigitsCore_len_exact (n : ℕ) : ∀ (f : ℕ) (ds : List Char), n < f →
    (Nat.toDigitsCore 10 f n ds).length = Nat.log 10 n + 1 + ds.length := by
  induction n using Nat.strong_induction_on with
  | _ n ih =>
    intro f ds hf
    match f, hf with
    | f + 1, hf =>
      rw [Nat.toDigitsCore]
      by_cases h10 : n / 10 = 0
      · have hn : n < 10 := by
          rcases Nat.lt_or_ge n 10 with h | h
          · exact h
          · exact absurd h10
              (by have := (Nat.one_le_div_iff (by norm_num : 0 < 10)).mpr h; omega)
        have hlog : Nat.log 10 n = 0 := Nat.log_eq_zero_iff.mpr (Or.inl hn)
        simp [h10, hlog]
        omega
      · have hge : 10 ≤ n := by
          rcases Nat.lt_or_ge n 10 with h | h
          · exact absurd (Nat.div_eq_of_lt h) h10
          · exact h
        have hlt : n / 10 < n := Nat.div_lt_self (by omega) (by norm_num)
        have hrec := ih (n / 10) hlt f (Nat.digitChar (n % 10) :: ds) (by omega)
        have hdb : Nat.log 10 (n / 10) = Nat.log 10 n - 1 := Nat.log_div_base 10 n
        have hpos : 0 < Nat.log 10 n := Nat.log_pos (by norm_num) hge
        simp only [h10, if_false]
        rw [hrec]
        simp only [List.length_cons]
        omega

/-- The decimal representation of `n` has `Nat.log 10 n + 1` characters. -/
lemma repr_len_eq (n : ℕ) : (Nat.repr n).length = Nat.log 10 n + 1 := by
  have h := toDigitsCore_len_exact n (n + 1) [] (Nat.lt_succ_self n)
  simpa [Nat.repr, Nat.toDigits, String.length, List.asString] using h

/-- A natural number between 100000 and 999999 prints as six characters. -/
lemma repr_len_six {n : ℕ} (h1 : 100000 ≤ n) (h2 : n ≤ 999999) :
    (Nat.repr n).length = 6 := by
  have : Nat.log 10 n = 5 :=
    Nat.log_eq_of_pow_le_of_lt_pow (by norm_num [h1]) (by norm_num; omega)
  rw [repr_len_eq, this]

/-- Every row produced by `buildPayload` stores `line_total` equal to
`qty * unit_price_at_time`. -/
lemma buildPayload_line_total (rows : List (String × ℚ)) (sid : ℕ) :
    ∀ (its : List SaleItemInput) (l : List SaleItemRow),
      buildPayload rows sid its = .ok l →
      ∀ r ∈ l, r.line_total = r.qty * r.unit_price_at_time := by
  intro its
  induction its with
  | nil =>
    intro l h r hr
    simp only [buildPayload, Except.ok.injEq] at h
    subst h
    simp at hr
  | cons it rest ih =>
    intro l h r hr
    simp only [buildPayload] at h
    cases hp : priceMapGet rows it.product_id with
    | none => rw [hp] at h; exact absurd h (by simp)
    | some unit =>
      rw [hp] at h
      cases hb : buildPayload rows sid rest with
      | error e => rw [hb] at h; exact absurd h (by simp)
      | ok tl =>
        rw [hb] at h
        simp only [Except.ok.injEq] at h
        subst h
        rcases List.mem_cons.mp hr with hr | hr
        · subst hr
          simp [mul_comm]
        · exact ih tl hb r hr

/-- If some item's product id is missing from the price map, `buildPayload`
throws. -/
lemma buildPayload_error_of_missing (rows : List (String × ℚ)) (sid : ℕ) :
    ∀ (its : List SaleItemInput), (∃ it ∈ its, priceMapGet rows it.product_id = none) →
      ∃ pid, buildPayload rows sid its = .error pid := by
  intro its
  induction its with
  | nil => rintro ⟨it, hit, _⟩; simp at hit
  | cons it rest ih =>
    rintro ⟨it0, hit0, hmiss⟩
    rcases List.mem_cons.mp hit0 with h | h
    · subst h
      exact ⟨it0.product_id, by simp [buildPayload, hmiss]⟩
    · cases hp : priceMapGet rows it.product_id with
      | none => exact ⟨it.product_id, by simp [buildPayload, hp]⟩
      | some unit =>
        obtain ⟨pid, hpid⟩ := ih ⟨it0, h, hmiss⟩
        exact ⟨pid, by simp [buildPayload, hp, hpid]⟩

/-- One unfolding of the retry loop. -/
lemma createLoop_succ (si : ℕ → SaleInsertOutcome) (ie : Option String)
    (rand : ℕ → ℚ) (rows : List (String × ℚ)) (mkRow : ℕ → String → SaleRow)
    (items : List SaleItemInput) (fuel attempt : ℕ) (lastErr : Option String) :
    createLoop si ie rand rows mkRow items (fuel + 1) attempt lastErr =
      (match si attempt with
      | .err msg =>
        if isDupMsg msg then
          let out := createLoop si ie rand rows mkRow items fuel (attempt + 1) (some msg)
          { out with attempts := out.attempts + 1 }
        else
          { result := .insertError msg, attempts := 1
            salesWritten := [], itemsWritten := [] }
      | .ok saleId =>
        let row := mkRow saleId (genCode (rand attempt))
        match buildPayload rows saleId items with
        | .error pid =>
          { result := .missingProduct pid, attempts := 1
            salesWritten := [row], itemsWritten := [] }
        | .ok payload =>
          match ie with
          | some msg =>
            { result := .itemsInsertFailed msg, attempts := 1
              salesWritten := [row], itemsWritten := [] }
          | none =>
            { result := .ok (genCode (rand attempt)), attempts := 1
              salesWritten := [row], itemsWritten := payload }) := rfl

/-- Under an all-duplicates insert oracle the loop burns all its fuel and
reports retry exhaustion, writing nothing. -/
lemma createLoop_allDup (si : ℕ → SaleInsertOutcome) (ie : Option String)
    (rand : ℕ → ℚ) (rows : List (String × ℚ)) (mkRow : ℕ → String → SaleRow)
    (items : List SaleItemInput)
    (hdup : ∀ k, ∃ m, si k = .err m ∧ isDupMsg m = true) :
    ∀ (fuel attempt : ℕ) (lastErr : Option String),
      ∃ m, createLoop si ie rand rows mkRow items fuel attempt lastErr =
        { result := .retryExhausted m, attempts := fuel
          salesWritten := [], itemsWritten := [] } := by
  intro fuel
  induction fuel with
  | zero => intro attempt lastErr; exact ⟨lastErr.getD "Failed after retries.", rfl⟩
  | succ fuel ih =>
    intro attempt lastErr
    obtain ⟨m, hm, hdm⟩ := hdup attempt
    obtain ⟨m2, hm2⟩ := ih (attempt + 1) (some m)
    refine ⟨m2, ?_⟩
    rw [createLoop_succ, hm]
    simp only [hdm, if_true, hm2]

/-- The retry loop never reports `invalidItems`. -/
lemma createLoop_ne_invalidItems (si : ℕ → SaleInsertOutcome) (ie : Option String)
    (rand : ℕ → ℚ) (rows : List (String × ℚ)) (mkRow : ℕ → String → SaleRow)
    (items : List SaleItemInput) :
    ∀ (fuel attempt : ℕ) (lastErr : Option String),
      (createLoop si ie rand rows mkRow items fuel attempt lastErr).result ≠
        .invalidItems := by
  intro fuel
  induction fuel with
  | zero => intro attempt lastErr; simp [createLoop]
  | succ fuel ih =>
    intro attempt lastErr
    rw [createLoop_succ]
    cases si attempt with
    | err msg =>
      by_cases hd : isDupMsg msg
      · simpa [hd] using ih (attempt + 1) (some msg)
      · simp [hd]
    | ok saleId =>
      cases hb : buildPayload rows saleId items with
      | error pid => simp [hb]
      | ok payload =>
        cases hie : ie with
        | some msg => simp [hb, hie]
        | none => simp [hb, hie]

/-- Every item row the retry loop writes satisfies the line-total law. -/
lemma createLoop_items_line (si : ℕ → SaleInsertOutcome) (ie : Option String)
    (rand : ℕ → ℚ) (rows : List (String × ℚ)) (mkRow : ℕ → String → SaleRow)
    (items : List SaleItemInput) :
    ∀ (fuel attempt : ℕ) (lastErr : Option String),
      ∀ r ∈ (createLoop si ie rand rows mkRow items fuel attempt lastErr).itemsWritten,
        r.line_total = r.qty * r.unit_price_at_time := by
  intro fuel
  induction fuel with
  | zero => intro attempt lastErr r hr; simp [createLoop] at hr
  | succ fuel ih =>
    intro attempt lastErr r hr
    rw [createLoop_succ] at hr
    cases hsi : si attempt with
    | err msg =>
      simp only [hsi] at hr
      by_cases hd : isDupMsg msg
      · simp only [hd, if_true] at hr
        exact ih (attempt + 1) (some msg) r hr
      · simp [hd] at hr
    | ok saleId =>
      simp only [hsi] at hr
      cases hb : buildPayload rows saleId items with
      | error pid => simp [hb] at hr
      | ok payload =>
        simp only [hb] at hr
        cases hie : ie with
        | some msg => simp [hie] at hr
        | none =>
          simp only [hie] at hr
          exact buildPayload_line_total rows saleId items payload hb r hr

/-! ### Claim theorems -/

/-- Claim C9: every string returned by `genCode` is the decimal
representation of a value in the range 100000–999999 (so the leading digit
is never zero) and has exactly six characters; the function is total in the
`Math.random()` value `r ∈ [0, 1)`. -/
theorem genCode_six_digit_range (r : ℚ) (h0 : 0 ≤ r) (h1 : r < 1) :
    100000 ≤ genCodeNat r ∧ genCodeNat r ≤ 999999 ∧
      genCode r = Nat.repr (genCodeNat r) ∧ (genCode r).length = 6 := by
  have hx0 : (100000 : ℚ) ≤ 100000 + r * 900000 := by nlinarith
  have hx1 : (100000 : ℚ) + r * 900000 < 1000000 := by nlinarith
  have hf0 : (100000 : ℤ) ≤ ⌊(100000 : ℚ) + r * 900000⌋ :=
    Int.le_floor.mpr (by exact_mod_cast hx0)
  have hf1 : ⌊(100000 : ℚ) + r * 900000⌋ < 1000000 :=
    Int.floor_lt.mpr (by exact_mod_cast hx1)
  have hn0 : 100000 ≤ genCodeNat r := by unfold genCodeNat; omega
  have hn1 : genCodeNat r ≤ 999999 := by unfold genCodeNat; omega
  exact ⟨hn0, hn1, rfl, repr_len_six hn0 hn1⟩

/-- Concrete instantiation of `genCode_six_digit_range` at `r = 1/2`. -/
theorem genCode_six_digit_range_witness :
    100000 ≤ genCodeNat (1/2) ∧ genCodeNat (1/2) ≤ 999999 ∧
      genCode (1/2) = Nat.repr (genCodeNat (1/2)) ∧ (genCode (1/2)).length = 6 :=
  genCode_six_digit_range (1/2) (by norm_num) (by norm_num)

/-- Claim C1 (counterexample): the POS confirm endpoint
(`pos/confirm-scan/route.ts`, first document) applied to a sale that is
already PAID and CONFIRMED succeeds (`ok`) instead of rejecting the attempt
with an ALREADY_CONFIRMED conflict, so it is not the case that every
ConfirmSale attempt on an already-confirmed sale is rejected. -/
theorem posConfirmScan_silently_reconfirms :
    (posConfirmScan (some "staff-2") "123456" exDb).1 = .ok 1 "123456" := by decide

/-- Claim C1 (amended): the `scan/confirm` endpoint does guarantee
at-most-once confirmation: whenever the sale found by the code is already
PAID or already CONFIRMED, the attempt is rejected with `alreadyConfirmed`
and the database is left unchanged. (The POS confirm endpoint in
`pos/confirm-scan/route.ts` performs an unconditional update with no such
guard, see `posConfirmScan_silently_reconfirms`.) -/
theorem scanConfirm_rejects_already_confirmed (uid codeIn : String) (db : DB)
    (sale : SaleRow)
    (hcode : jsTrim codeIn ≠ "")
    (hfind : db.sales.find? (fun s => s.public_code == jsTrim codeIn) = some sale)
    (hsrc : sale.source = "CUSTOMER_SCAN")
    (hconf : jsToUpper sale.status = "PAID" ∨ jsToUpper sale.payment_status = "CONFIRMED") :
    scanConfirm (some uid) codeIn db = (.alreadyConfirmed, db) := by
  unfold scanConfirm
  simp [hcode, hfind, hsrc, hconf]

/-- Concrete instantiation of `scanConfirm_rejects_already_confirmed`. -/
theorem scanConfirm_rejects_already_confirmed_witness :
    scanConfirm (some "staff-2") "123456" exDb = (.alreadyConfirmed, exDb) :=
  scanConfirm_rejects_already_confirmed "staff-2" "123456" exDb paidScanSale
    (by decide) (by decide) (by decide) (Or.inl (by decide))

/-- Claim C7: for every sale found by the lookup, the returned `paid`
boolean equals `payment_status == CONFIRMED OR status == PAID` (after
uppercasing, as the route does), and the lookup is read-only: the database
state it leaves behind is exactly its input state. -/
theorem scanLookup_paid_derivation (codeIn : String) (db : DB) :
    (∀ sale : SaleRow,
      jsTrim codeIn ≠ "" → ¬(jsTrim codeIn).length < 4 →
      db.sales.find? (fun s => s.public_code == jsTrim codeIn) = some sale →
      sale.source = "CUSTOMER_SCAN" →
      (scanLookup codeIn db).1 = .found
        { code := sale.public_code
          payment_status := sale.payment_status
          status := sale.status
          paid := jsToUpper sale.payment_status == "CONFIRMED" ||
            jsToUpper sale.status == "PAID" }) ∧
    (scanLookup codeIn db).2 = db := by
  constructor
  · intro sale h1 h2 hfind hsrc
    unfold scanLookup scanLookupRes
    simp [h1, h2, hfind, hsrc]
  · rfl

/-- Concrete instantiation of `scanLookup_paid_derivation` on a confirmed
sale: `paid` comes out `true`. -/
theorem scanLookup_paid_derivation_witness :
    (scanLookup "123456" exDb).1 = .found
      { code := "123456", payment_status := "CONFIRMED", status := "PAID"
        paid := jsToUpper "CONFIRMED" == "CONFIRMED" || jsToUpper "PAID" == "PAID" } ∧
    (scanLookup "123456" exDb).2 = exDb :=
  ⟨(scanLookup_paid_derivation "123456" exDb).1 paidScanSale
      (by decide) (by decide) (by decide) (by decide),
   (scanLookup_paid_derivation "123456" exDb).2⟩

/-- Claim C10: a sale whose source is not CUSTOMER_SCAN is not retrievable
by public code: the lookup fails with the "not a scan checkout" error
instead of returning the sale. -/
theorem scanLookup_rejects_non_scan (codeIn : String) (db : DB) (sale : SaleRow)
    (h1 : jsTrim codeIn ≠ "") (h2 : ¬(jsTrim codeIn).length < 4)
    (hfind : db.sales.find? (fun s => s.public_code == jsTrim codeIn) = some sale)
    (hsrc : sale.source ≠ "CUSTOMER_SCAN") :
    (scanLookup codeIn db).1 = .notScanCheckout := by
  unfold scanLookup scanLookupRes
  simp [h1, h2, hfind, hsrc]

/-- Concrete instantiation of `scanLookup_rejects_non_scan` on the
staff-manual fixture sale. -/
theorem scanLookup_rejects_non_scan_witness :
    (scanLookup "345678" exDb).1 = .notScanCheckout :=
  scanLookup_rejects_non_scan "345678" exDb manualSale
    (by decide) (by decide) (by decide) (by decide)

/-- Claim C5: a successful confirm sets exactly `status = PAID`,
`payment_status = CONFIRMED` and `staff_id` to the confirming identity on
the row(s) carrying the matched sale's id, preserving every other field of
that row; every sale row with a different id is unchanged, the `sale_items`
table is unchanged, and when no row matches the code the route fails with
`codeNotFound` leaving the database unchanged. -/
theorem scanConfirm_success_frame (uid codeIn : String) (db : DB) (sale : SaleRow)
    (hcode : jsTrim codeIn ≠ "")
    (hfind : db.sales.find? (fun s => s.public_code == jsTrim codeIn) = some sale)
    (hsrc : sale.source = "CUSTOMER_SCAN")
    (hnp : jsToUpper sale.status ≠ "PAID")
    (hnc : jsToUpper sale.payment_status ≠ "CONFIRMED") :
    (scanConfirm (some uid) codeIn db).1 = .ok ∧
    (scanConfirm (some uid) codeIn db).2.items = db.items ∧
    (scanConfirm (some uid) codeIn db).2.sales.length = db.sales.length ∧
    List.Forall₂
      (fun s t =>
        (s.id ≠ sale.id → t = s) ∧
        (s.id = sale.id →
          t.status = "PAID" ∧ t.payment_status = "CONFIRMED" ∧
          t.staff_id = some uid ∧ t.id = s.id ∧ t.public_code = s.public_code ∧
          t.source = s.source ∧ t.payment_method = s.payment_method ∧
          t.momo_reference = s.momo_reference ∧ t.note = s.note ∧
          t.created_at = s.created_at))
      db.sales (scanConfirm (some uid) codeIn db).2.sales ∧
    (∀ (db2 : DB) (uid2 code2 : String), jsTrim code2 ≠ "" →
      db2.sales.find? (fun s => s.public_code == jsTrim code2) = none →
      scanConfirm (some uid2) code2 db2 = (.codeNotFound, db2)) := by
  have hred : scanConfirm (some uid) codeIn db =
      (.ok,
        { db with
            sales := db.sales.map
              (fun s => if s.id = sale.id then confirmUpdate uid s else s) }) := by
    unfold scanConfirm
    simp [hcode, hfind, hsrc, hnp, hnc]
  refine ⟨by rw [hred], by rw [hred], by rw [hred]; simp, ?_, ?_⟩
  · rw [hred]
    simp only [List.forall₂_map_right_iff]
    rw [List.forall₂_same]
    intro s _
    by_cases h : s.id = sale.id
    · simp [h, confirmUpdate]
    · simp [h]
  · intro db2 uid2 code2 hc2 hf2
    unfold scanConfirm
    simp [hc2, hf2]

/-- Concrete instantiation of `scanConfirm_success_frame` on the pending
fixture sale. -/
theorem scanConfirm_success_frame_witness :
    (scanConfirm (some "staff-9") "234567" exDb).1 = .ok ∧
    (scanConfirm (some "staff-9") "234567" exDb).2.items = exDb.items ∧
    (scanConfirm (some "staff-9") "234567" exDb).2.sales.length = exDb.sales.length := by
  have h := scanConfirm_success_frame "staff-9" "234567" exDb pendingScanSale
    (by decide) (by decide) (by decide) (by decide) (by decide)
  exact ⟨h.1, h.2.1, h.2.2.1⟩

/-- Reduction of `scanCreate` to its retry loop once validation, the
scan-enabled check and the price lookup have passed. -/
lemma scanCreate_reduce (env : CreateEnv) (pmIn momoIn : Option String)
    (itemsIn : List SaleItemInput) (flag : Option Bool) (rows : List (String × ℚ))
    (hitems : validItems itemsIn ≠ [])
    (hset : env.settingsRes = .ok flag) (hflag : flag.getD false = true)
    (hprices : env.pricesRes = .ok rows) :
    scanCreate env pmIn momoIn itemsIn =
      createLoop env.saleInsert env.itemsInsertErr env.rand rows
        (fun id code =>
          scanSaleRow (jsToUpper (pmIn.getD "CASH"))
            (if jsToUpper (pmIn.getD "CASH") = "MOMO" ∧ jsTrim (momoIn.getD "") ≠ ""
              then some (jsTrim (momoIn.getD "")) else none)
            id code env.now)
        (validItems itemsIn) 6 0 none := by
  have hie : (validItems itemsIn).isEmpty = false := by
    cases hv : validItems itemsIn <;> simp_all
  unfold scanCreate
  simp [hie, hset, hflag, hprices]

/-- Reduction of `staffCreate` to its retry loop once the caller is signed
in, validation and the price lookup have passed. -/
lemma staffCreate_reduce (env : CreateEnv) (uid : String)
    (pmIn momoIn : Option String) (itemsIn : List SaleItemInput)
    (rows : List (String × ℚ))
    (hitems : validItems itemsIn ≠ [])
    (hprices : env.pricesRes = .ok rows) :
    staffCreate env (some uid) pmIn momoIn itemsIn =
      createLoop env.saleInsert env.itemsInsertErr env.rand rows
        (fun id code =>
          staffSaleRow uid (jsToUpper (pmIn.getD "CASH"))
            (if jsToUpper (pmIn.getD "CASH") = "MOMO" ∧ jsTrim (momoIn.getD "") ≠ ""
              then some (jsTrim (momoIn.getD "")) else none)
            id code env.now)
        (validItems itemsIn) 6 0 none := by
  have hie : (validItems itemsIn).isEmpty = false := by
    cases hv : validItems itemsIn <;> simp_all
  unfold staffCreate
  simp [hie, hprices]

/-- Claim C2: under an insert oracle that reports a code-uniqueness
violation at every attempt, each creation route — `scanCreate`
(CUSTOMER_SCAN) and `staffCreate` (STAFF_MANUAL) — performs exactly 6
insert attempts, then fails with the retry-exhausted error having written
nothing; an insert error that is not a uniqueness violation instead aborts
either route after the first attempt and is surfaced verbatim. -/
theorem createSale_retry_bound (env : CreateEnv) (uid : String)
    (pmIn momoIn : Option String)
    (itemsIn : List SaleItemInput) (flag : Option Bool) (rows : List (String × ℚ))
    (hitems : validItems itemsIn ≠ [])
    (hset : env.settingsRes = .ok flag) (hflag : flag.getD false = true)
    (hprices : env.pricesRes = .ok rows) :
    ((∀ k, ∃ m, env.saleInsert k = .err m ∧ isDupMsg m = true) →
      (∃ m, scanCreate env pmIn momoIn itemsIn =
        { result := .retryExhausted m, attempts := 6
          salesWritten := [], itemsWritten := [] }) ∧
      (∃ m, staffCreate env (some uid) pmIn momoIn itemsIn =
        { result := .retryExhausted m, attempts := 6
          salesWritten := [], itemsWritten := [] })) ∧
    (∀ m, env.saleInsert 0 = .err m → isDupMsg m = false →
      scanCreate env pmIn momoIn itemsIn =
        { result := .insertError m, attempts := 1
          salesWritten := [], itemsWritten := [] } ∧
      staffCreate env (some uid) pmIn momoIn itemsIn =
        { result := .insertError m, attempts := 1
          salesWritten := [], itemsWritten := [] }) := by
  have hredScan := scanCreate_reduce env pmIn momoIn itemsIn flag rows hitems hset hflag hprices
  have hredStaff := staffCreate_reduce env uid pmIn momoIn itemsIn rows hitems hprices
  constructor
  · intro hdup
    constructor
    · obtain ⟨m, hm⟩ := createLoop_allDup env.saleInsert env.itemsInsertErr env.rand rows
        _ (validItems itemsIn) hdup 6 0 none
      exact ⟨m, by rw [hredScan, hm]⟩
    · obtain ⟨m, hm⟩ := createLoop_allDup env.saleInsert env.itemsInsertErr env.rand rows
        _ (validItems itemsIn) hdup 6 0 none
      exact ⟨m, by rw [hredStaff, hm]⟩
  · intro m hm hnd
    constructor
    · rw [hredScan, show (6 : ℕ) = 5 + 1 from rfl, createLoop_succ, hm]
      simp [hnd]
    · rw [hredStaff, show (6 : ℕ) = 5 + 1 from rfl, createLoop_succ, hm]
      simp [hnd]

/-- Concrete instantiation of `createSale_retry_bound`: six attempts under a
constant duplicate-key oracle and immediate abort under a permission error,
for both creation routes. -/
theorem createSale_retry_bound_witness :
    (scanCreate exEnvDup none none [⟨"p1", JSNum.num 1⟩]).attempts = 6 ∧
    (scanCreate exEnvDup none none [⟨"p1", JSNum.num 1⟩]).salesWritten = [] ∧
    (staffCreate exEnvDup (some "staff-1") none none [⟨"p1", JSNum.num 1⟩]).attempts = 6 ∧
    (staffCreate exEnvDup (some "staff-1") none none [⟨"p1", JSNum.num 1⟩]).salesWritten = [] ∧
    (scanCreate exEnvNonDup none none [⟨"p1", JSNum.num 1⟩]).result =
      .insertError "permission denied for table sales" ∧
    (staffCreate exEnvNonDup (some "staff-1") none none [⟨"p1", JSNum.num 1⟩]).result =
      .insertError "permission denied for table sales" := by
  have h1 := (createSale_retry_bound exEnvDup "staff-1" none none [⟨"p1", JSNum.num 1⟩]
    (some true) exPrices (by decide) rfl rfl rfl).1
    (fun k => ⟨"duplicate key value violates unique constraint", rfl, by decide⟩)
  have h2 := (createSale_retry_bound exEnvNonDup "staff-1" none none [⟨"p1", JSNum.num 1⟩]
    (some true) exPrices (by decide) rfl rfl rfl).2
    "permission denied for table sales" rfl (by decide)
  obtain ⟨⟨m1, hm1⟩, ⟨m2, hm2⟩⟩ := h1
  rw [hm1, hm2, h2.1, h2.2]
  exact ⟨rfl, rfl, rfl, rfl, rfl, rfl⟩

/-- Claim C3 (counterexample): an input containing an item whose qty is not
a positive finite number (here `NaN`) does NOT fail with `invalidItems`;
the invalid item is silently filtered out, a sale row is written and only
the one valid item row is written. -/
theorem scanCreate_accepts_partially_invalid_items :
    (scanCreate exEnv none none [⟨"p1", JSNum.num 2⟩, ⟨"p2", JSNum.nan⟩]).result ≠
      .invalidItems ∧
    (scanCreate exEnv none none [⟨"p1", JSNum.num 2⟩, ⟨"p2", JSNum.nan⟩]).salesWritten.length = 1 ∧
    (scanCreate exEnv none none [⟨"p1", JSNum.num 2⟩, ⟨"p2", JSNum.nan⟩]).itemsWritten.length = 1 :=
  ⟨by decide, by decide, by decide⟩

/-- Claim C3 (amended): `scanCreate` fails with `invalidItems` — writing
nothing and making no insert attempt — exactly when the item list contains
no valid item at all (empty, or every item filtered out); when at least one
valid item survives the filter the operation never reports `invalidItems`,
the remaining invalid items having been dropped silently. -/
theorem scanCreate_invalid_items_iff (env : CreateEnv) (pmIn momoIn : Option String)
    (itemsIn : List SaleItemInput) :
    (validItems itemsIn = [] →
      scanCreate env pmIn momoIn itemsIn =
        { result := .invalidItems, attempts := 0
          salesWritten := [], itemsWritten := [] }) ∧
    (validItems itemsIn ≠ [] →
      (scanCreate env pmIn momoIn itemsIn).result ≠ .invalidItems) := by
  constructor
  · intro h
    unfold scanCreate
    simp [h]
  · intro h
    have hie : (validItems itemsIn).isEmpty = false := by
      cases hv : validItems itemsIn <;> simp_all
    unfold scanCreate
    cases h1 : env.settingsRes with
    | error e => simp [hie, h1]
    | ok flag =>
      cases hb : flag.getD false with
      | false => simp [hie, h1, hb]
      | true =>
        cases h2 : env.pricesRes with
        | error e => simp [hie, h1, hb, h2]
        | ok rows =>
          simp only [hie, Bool.false_eq_true, if_false, h1, hb, h2, Bool.not_true]
          simp
          exact createLoop_ne_invalidItems _ _ _ _ _ _ 6 0 none

/-- Concrete instantiation of `scanCreate_invalid_items_iff`: the empty
input fails with `invalidItems` and writes nothing; a valid one-item input
does not report `invalidItems`. -/
theorem scanCreate_invalid_items_iff_witness :
    scanCreate exEnv none none [] =
      { result := .invalidItems, attempts := 0
        salesWritten := [], itemsWritten := [] } ∧
    (scanCreate exEnv none none [⟨"p1", JSNum.num 1⟩]).result ≠ .invalidItems :=
  ⟨(scanCreate_invalid_items_iff exEnv none none []).1 (by decide),
   (scanCreate_invalid_items_iff exEnv none none [⟨"p1", JSNum.num 1⟩]).2 (by decide)⟩

/-- Claim C4 (counterexample): when the referenced product is absent from
the price-lookup result the operation does fail (`missingProduct`, nothing
skipped, no default price), but a sale row HAS already been persisted,
because the missing-product check happens while building the items payload,
after the sale insert. -/
theorem scanCreate_missing_product_writes_sale :
    (scanCreate exEnvNoPrices none none [⟨"p1", JSNum.num 2⟩]).result =
      .missingProduct "p1" ∧
    (scanCreate exEnvNoPrices none none [⟨"p1", JSNum.num 2⟩]).salesWritten.length = 1 :=
  ⟨by decide, by decide⟩

/-- Claim C4 (amended): if any valid item's product id is missing from the
price rows and the first insert attempt succeeds, `scanCreate` fails with
`missingProduct` for some referenced product id — no item is skipped and no
default price substituted — but the sale row inserted by the successful
attempt is left persisted (orphaned, with no item rows written). -/
theorem scanCreate_missing_product_orphan (env : CreateEnv)
    (pmIn momoIn : Option String) (itemsIn : List SaleItemInput)
    (flag : Option Bool) (rows : List (String × ℚ)) (sid : ℕ)
    (hitems : validItems itemsIn ≠ [])
    (hset : env.settingsRes = .ok flag) (hflag : flag.getD false = true)
    (hprices : env.pricesRes = .ok rows)
    (hins : env.saleInsert 0 = .ok sid)
    (hmiss : ∃ it ∈ validItems itemsIn, priceMapGet rows it.product_id = none) :
    ∃ pid, (scanCreate env pmIn momoIn itemsIn).result = .missingProduct pid ∧
      (scanCreate env pmIn momoIn itemsIn).salesWritten.length = 1 ∧
      (scanCreate env pmIn momoIn itemsIn).itemsWritten = [] := by
  obtain ⟨pid, hpid⟩ := buildPayload_error_of_missing rows sid (validItems itemsIn) hmiss
  have hred := scanCreate_reduce env pmIn momoIn itemsIn flag rows hitems hset hflag hprices
  refine ⟨pid, ?_, ?_, ?_⟩ <;>
    rw [hred, show (6 : ℕ) = 5 + 1 from rfl, createLoop_succ, hins] <;>
    simp [hpid]

/-- Concrete instantiation of `scanCreate_missing_product_orphan`. -/
theorem scanCreate_missing_product_orphan_witness :
    (scanCreate exEnvNoPrices none none [⟨"p1", JSNum.num 2⟩]).salesWritten.length = 1 ∧
    (scanCreate exEnvNoPrices none none [⟨"p1", JSNum.num 2⟩]).itemsWritten = [] := by
  obtain ⟨pid, _, h2, h3⟩ := scanCreate_missing_product_orphan exEnvNoPrices none none
    [⟨"p1", JSNum.num 2⟩] (some true) [] 1 (by decide) rfl rfl rfl rfl
    ⟨⟨"p1", JSNum.num 2⟩, by decide, by decide⟩
  exact ⟨h2, h3⟩

/-- Every item row written by the scan-create route satisfies the
line-total law. -/
lemma scanCreate_items_line (env : CreateEnv) (pmIn momoIn : Option String)
    (itemsIn : List SaleItemInput) :
    ∀ r ∈ (scanCreate env pmIn momoIn itemsIn).itemsWritten,
      r.line_total = r.qty * r.unit_price_at_time := by
  intro r hr
  unfold scanCreate at hr
  cases hie : (validItems itemsIn).isEmpty with
  | true => simp [hie] at hr
  | false =>
    cases h1 : env.settingsRes with
    | error e => simp [hie, h1] at hr
    | ok flag =>
      cases hb : flag.getD false with
      | false => simp [hie, h1, hb] at hr
      | true =>
        cases h2 : env.pricesRes with
        | error e => simp [hie, h1, hb, h2] at hr
        | ok rows =>
          simp only [hie, Bool.false_eq_true, if_false, h1, hb, Bool.not_true, h2] at hr
          simp at hr
          exact createLoop_items_line _ _ _ _ _ _ 6 0 none r hr

/-- Every item row written by the staff-manual create route satisfies the
line-total law. -/
lemma staffCreate_items_line (env : CreateEnv) (uidIn pmIn momoIn : Option String)
    (itemsIn : List SaleItemInput) :
    ∀ r ∈ (staffCreate env uidIn pmIn momoIn itemsIn).itemsWritten,
      r.line_total = r.qty * r.unit_price_at_time := by
  intro r hr
  unfold staffCreate at hr
  cases uidIn with
  | none => simp at hr
  | some uid =>
    cases hie : (validItems itemsIn).isEmpty with
    | true => simp [hie] at hr
    | false =>
      cases h2 : env.pricesRes with
      | error e => simp [hie, h2] at hr
      | ok rows =>
        simp only [hie, Bool.false_eq_true, if_false, h2] at hr
        simp at hr
        exact createLoop_items_line _ _ _ _ _ _ 6 0 none r hr

/-- Claim C6: every `sale_items` row written by either creation route has
`line_total = qty * unit_price_at_time`, and consequently the sale's total
(the sum of its written items' `line_total` values) equals the sum of the
products `qty * unit_price_at_time`. -/
theorem createSale_line_total (env : CreateEnv) (uidIn pmIn momoIn : Option String)
    (itemsIn : List SaleItemInput) :
    (∀ r ∈ (scanCreate env pmIn momoIn itemsIn).itemsWritten,
      r.line_total = r.qty * r.unit_price_at_time) ∧
    ((scanCreate env pmIn momoIn itemsIn).itemsWritten.map
        (fun r => r.line_total)).sum =
      ((scanCreate env pmIn momoIn itemsIn).itemsWritten.map
        (fun r => r.qty * r.unit_price_at_time)).sum ∧
    (∀ r ∈ (staffCreate env uidIn pmIn momoIn itemsIn).itemsWritten,
      r.line_total = r.qty * r.unit_price_at_time) := by
  refine ⟨scanCreate_items_line env pmIn momoIn itemsIn, ?_,
    staffCreate_items_line env uidIn pmIn momoIn itemsIn⟩
  exact congrArg List.sum
    (List.map_congr_left (scanCreate_items_line env pmIn momoIn itemsIn))

/-- Concrete instantiation of `createSale_line_total`: one item row is
written, and its stored total sums agree. -/
theorem createSale_line_total_witness :
    (scanCreate exEnv none none [⟨"p1", JSNum.num 2⟩]).itemsWritten.length = 1 ∧
    ((scanCreate exEnv none none [⟨"p1", JSNum.num 2⟩]).itemsWritten.map
        (fun r => r.line_total)).sum =
      ((scanCreate exEnv none none [⟨"p1", JSNum.num 2⟩]).itemsWritten.map
        (fun r => r.qty * r.unit_price_at_time)).sum :=
  ⟨by decide, (createSale_line_total exEnv none none none [⟨"p1", JSNum.num 2⟩]).2.1⟩

/-- Claim C8: once the items pass validation, `scanCreate` (the
CUSTOMER_SCAN source) fails with `scanDisabled` — writing nothing and
attempting no insert — whenever the scan-enabled flag read from settings is
anything other than `true` (false or absent); the staff-manual creation
route's behaviour does not depend on the settings read at all. -/
theorem scan_gating (env : CreateEnv) (pmIn momoIn : Option String)
    (itemsIn : List SaleItemInput) (flag : Option Bool)
    (hitems : validItems itemsIn ≠ [])
    (hset : env.settingsRes = .ok flag) (hflag : flag.getD false = false) :
    scanCreate env pmIn momoIn itemsIn =
      { result := .scanDisabled, attempts := 0
        salesWritten := [], itemsWritten := [] } ∧
    ∀ (b₁ b₂ : Except String (Option Bool)) (uidIn : Option String),
      staffCreate { env with settingsRes := b₁ } uidIn pmIn momoIn itemsIn =
        staffCreate { env with settingsRes := b₂ } uidIn pmIn momoIn itemsIn := by
  constructor
  · have hie : (validItems itemsIn).isEmpty = false := by
      cases hv : validItems itemsIn <;> simp_all
    unfold scanCreate
    simp [hie, hset, hflag]
  · intro b₁ b₂ uidIn
    rfl

/-- Concrete instantiation of `scan_gating`: flag `false` yields
`scanDisabled` with nothing written. -/
theorem scan_gating_witness :
    scanCreate exEnvDisabled none none [⟨"p1", JSNum.num 1⟩] =
      { result := .scanDisabled, attempts := 0
        salesWritten := [], itemsWritten := [] } :=
  (scan_gating exEnvDisabled none none [⟨"p1", JSNum.num 1⟩] (some false)
    (by decide) rfl rfl).1
